import Mathlib

/-!
Shallow embedding of the tk-houdini-arnoldnode handler
(`python/tk_houdini_arnoldnode/handler.py`) together with the parts of the
host (Houdini `hou`) and pipeline (`sgtk`) object model that the handler
touches.  Pure data is modelled directly; the host's mutable node graph is
modelled by explicit state passing; fallible Python code returns `Except`.
Machine floats never carry any computation in this code (positions and
parameter values are only stored and copied), so numeric parameter values
and node positions are modelled with `Int`.
-/

/-- Python-level exception classes raised by the code under study
(`TypeError`, `ValueError`, `IndexError`, `KeyError`, `AttributeError`,
`hou.PermissionError`, `hou.OperationFailed`, `hou.InvalidInput`,
`sgtk.TankError`).  The two exception classes that the handler constructs
itself carry their message string. -/
inductive Err where
  | typeError : Err
  | valueError : Err
  | indexError : Err
  | keyError : Err
  | attributeError : Err
  | permissionError : Err
  | operationFailed : Err
  | invalidInput : String → Err
  | tankError : String → Err
  deriving DecidableEq

/-- Parameter template kind, as far as `_copy_parm_values` inspects it:
`hou.FolderSetParmTemplate`, `hou.StringParmTemplate`, or any other
(numeric) template. -/
inductive PType where
  | folder : PType
  | strT : PType
  | intT : PType
  deriving DecidableEq

/-- The stored value of a parameter: a raw (unexpanded) string, an integer,
or a list of keyframes.  A keyed parameter is modelled as evaluating to its
keyframe record; the handler never evaluates a keyed parameter. -/
inductive PVal where
  | s : String → PVal
  | i : Int → PVal
  | keys : List Int → PVal
  deriving DecidableEq

/-- A Houdini parameter: its template kind, current value and lock state. -/
structure Parm where
  ptype : PType
  val : PVal
  locked : Bool
  deriving DecidableEq

/-- A Houdini node as far as the handler reads or writes it: name, position
(`setPosition`/`position`), parameters, the free-form user-data store
(`setUserData`/`userDataDict`), and its incoming connections
(`inputConnections`, pairs of input index and upstream node name). -/
structure Node where
  name : String
  pos : Int × Int
  parms : List (String × Parm)
  userData : List (String × String)
  inputConns : List (Nat × String)
  deriving DecidableEq

/-- Python `list[i]` indexing with an `int` index: non-negative indices from
the front, negative indices from the back, `IndexError` when out of range. -/
def pyIndex {α : Type} (l : List α) (idx : Int) : Except Err α :=
  if 0 ≤ idx then
    match l.get? idx.toNat with
    | some v => Except.ok v
    | none => Except.error Err.indexError
  else
    let k := (-idx).toNat
    if k ≤ l.length then
      match l.get? (l.length - k) with
      | some v => Except.ok v
      | none => Except.error Err.indexError
    else
      Except.error Err.indexError

/-- Python `list.index(x)`: index of the first occurrence, `ValueError` when
the element is absent. -/
def pyListIndex (l : List String) (x : String) : Except Err Int :=
  match l with
  | [] => Except.error Err.valueError
  | a :: rest =>
      if a = x then Except.ok 0
      else (pyListIndex rest x).map (fun j => j + 1)

/-- Python `range(a, b)` over ints, as the list of its elements. -/
def pyRange (a b : Int) : List Int :=
  (List.range (b - a).toNat).map (fun k => a + (k : Int))

/-- Python `s.startswith(p)`, computed on the character lists (identical to
`String.startsWith`, but by structural recursion so that proofs can
evaluate it). -/
def pyStartsWith (s p : String) : Bool :=
  List.isPrefixOf p.data s.data

/-- Python truthiness of a parameter value (`if usefile_parm.eval():`). -/
def pyTruthy (v : PVal) : Bool :=
  match v with
  | PVal.s w => w ≠ ""
  | PVal.i k => k ≠ 0
  | PVal.keys ks => ks ≠ []

/-- Python dictionary write `d[k] = v`: replace the value of an existing key
in place, otherwise append the new key. -/
def dictSet {α : Type} (d : List (String × α)) (k : String) (v : α) :
    List (String × α) :=
  if (d.lookup k).isSome then
    d.map (fun q => if q.1 = k then (q.1, v) else q)
  else
    d ++ [(k, v)]

/-- Python `dict.update`: existing keys keep their position and take the new
value, new keys are appended in order. -/
def dictUpdate {α : Type} (base ctx : List (String × α)) :
    List (String × α) :=
  (base.map (fun q =>
    match ctx.lookup q.1 with
    | some v => (q.1, v)
    | none => q)) ++ ctx.filter (fun q => (base.lookup q.1).isNone)

/-- `node.parm(name)`: the parameter of that name, or `None`. -/
def parmFind (n : Node) (key : String) : Option Parm :=
  n.parms.lookup key

/-- `parm.eval()`.  A keyed parameter is modelled as evaluating to its
keyframe record (the handler never evaluates a keyed parameter). -/
def evalP (p : Parm) : PVal :=
  p.val

/-- `parm.keyframes()`: the keyframes, empty when the parameter is unkeyed. -/
def keyframesOf (p : Parm) : List Int :=
  match p.val with
  | PVal.keys ks => ks
  | _ => []

/-- `parm.unexpandedString()`: the raw string of a string parameter;
`hou.OperationFailed` on a non-string value. -/
def unexpandedStringE (p : Parm) : Except Err String :=
  match p.val with
  | PVal.s w => Except.ok w
  | _ => Except.error Err.operationFailed

/-- `parm.set(value)`: refuses to write a locked parameter
(`hou.PermissionError`) and rejects a value whose type does not match the
parameter's template (`TypeError`). -/
def parmSetVal (p : Parm) (v : PVal) : Except Err Parm :=
  if p.locked then Except.error Err.permissionError
  else
    match p.ptype, v with
    | PType.strT, PVal.s w => Except.ok { p with val := PVal.s w }
    | PType.intT, PVal.i k => Except.ok { p with val := PVal.i k }
    | _, _ => Except.error Err.typeError

/-- `node.parm(name).set(value)`: `AttributeError` when the parameter does
not exist (`None.set`), otherwise `parmSetVal` applied in place. -/
def nodeSetParm (n : Node) (key : String) (v : PVal) : Except Err Node :=
  match parmFind n key with
  | none => Except.error Err.attributeError
  | some p =>
      (parmSetVal p v).map (fun p' =>
        { n with parms := n.parms.map (fun q =>
            if q.1 = key then (q.1, p') else q) })

/-- `node.parm(name).lock(b)`: `AttributeError` when the parameter does not
exist, otherwise set the lock flag. -/
def nodeLockParm (n : Node) (key : String) (b : Bool) : Except Err Node :=
  match parmFind n key with
  | none => Except.error Err.attributeError
  | some p =>
      Except.ok { n with parms := n.parms.map (fun q =>
        if q.1 = key then (q.1, { p with locked := b }) else q) }

/-- `target_parm.setKeyframe(key)`: append one keyframe, turning the stored
value into a keyframe record; refuses a locked parameter. -/
def nodeSetKeyframe (n : Node) (key : String) (k : Int) : Except Err Node :=
  match parmFind n key with
  | none => Except.error Err.attributeError
  | some p =>
      if p.locked then Except.error Err.permissionError
      else
        Except.ok { n with parms := n.parms.map (fun q =>
          if q.1 = key then (q.1, { p with val := PVal.keys (keyframesOf p ++ [k]) }) else q) }

/-- `node.setUserData(key, value)`. -/
def setUserData (n : Node) (k v : String) : Node :=
  { n with userData := dictSet n.userData k v }

/-! ## The sgtk / session environment -/

/-- The work-file template (`app.get_template("work_file_template")`):
`validate` and `get_fields` over the current scene path. -/
structure WTemplate where
  validate : String → Bool
  get_fields : String → List (String × String)

/-- Field mappings passed to template resolution.  Values may be `None`
(`work_file_fields.get("name", None)`), so they are `Option PVal`. -/
abbrev Fields : Type := List (String × Option PVal)

/-- An output template (`app.get_template_by_name(...)`): `apply_fields`
may fail with a `TankError` when fields are missing or invalid, and
`ctx_fields` models `context.as_template_fields(output_template)` for this
template. -/
structure OTemplate where
  apply_fields : Fields → Except Err String
  ctx_fields : Fields

/-- The ambient session: the current hip-file path (`hou.hipFile.path()`),
the configured work-file template, the profile menu labels
(`parm.menuLabels()`, produced by `get_output_profile_menu_labels`), the
handler's name-keyed output-profile cache (`self._output_profiles`, each
profile a record of template names keyed by setting name), template lookup
by name, and the platform path separator `os.path.sep`. -/
structure Env where
  hipPath : String
  work_file_template : Option WTemplate
  menuLabels : List String
  output_profiles : List (String × List (String × String))
  get_template_by_name : String → Option OTemplate
  osSep : Char

/-- Python `d[k]` on a dictionary: `KeyError` when the key is absent. -/
def pyDictGetItem {α : Type} (d : List (String × α)) (k : String) :
    Except Err α :=
  match d.lookup k with
  | some v => Except.ok v
  | none => Except.error Err.keyError

/-- `TkArnoldNodeHandler._get_hipfile_fields`: fields extracted from the
current hip path via the work-file template; empty when there is no
template or it does not validate the path. -/
def get_hipfile_fields (env : Env) : List (String × String) :=
  match env.work_file_template with
  | some t => if t.validate env.hipPath then t.get_fields env.hipPath else []
  | none => []

/-- `TkArnoldNodeHandler._get_output_profile`: read the profile-selector
parameter, index the menu labels with its value, and look the name up in
the handler's profile cache. -/
def get_output_profile (env : Env) (node : Node) :
    Except Err (List (String × String)) := do
  match parmFind node "sgtk_output_profile" with
  | none => Except.error Err.attributeError
  | some p =>
      match evalP p with
      | PVal.i k => do
          let nm ← pyIndex env.menuLabels k
          pyDictGetItem env.output_profiles nm
      | _ => Except.error Err.typeError

/-- `str.replace(os.path.sep, "/")` for the single-character platform
separator: replace every occurrence of that character. -/
def replaceSep (sep : Char) (s : String) : String :=
  String.mk (s.data.map (fun c => if c = sep then '/' else c))

/-- `TkArnoldNodeHandler._compute_output_path`: fail with the TankError
"This Houdini file is not a Shotgun Toolkit work file!" when the work-file
template yields no fields; otherwise resolve the profile's template by
name, build the field mapping (work-file name/version, node name as both
"node" and "renderpass", the frame and view placeholder tokens, the
optional AOV name, then the context fields), apply it, and normalise path
separators to forward slashes.  An absent template object makes the later
`apply_fields` attribute access fail (`None.apply_fields`). -/
def compute_output_path (env : Env) (node : Node) (template_name : String)
    (aov_name : Option String) : Except Err String :=
  let work_file_fields := get_hipfile_fields env
  if work_file_fields = [] then
    Except.error (Err.tankError "This Houdini file is not a Shotgun Toolkit work file!")
  else
    match get_output_profile env node with
    | Except.error e => Except.error e
    | Except.ok output_profile =>
      match pyDictGetItem output_profile template_name with
      | Except.error e => Except.error e
      | Except.ok tname =>
        let fields : Fields :=
          [("name", (work_file_fields.lookup "name").map PVal.s),
           ("node", some (PVal.s node.name)),
           ("renderpass", some (PVal.s node.name)),
           ("SEQ", some (PVal.s "FORMAT: $F")),
           ("version", (work_file_fields.lookup "version").map PVal.s)]
        let fields := fields ++ [("eye", some (PVal.s "%V"))]
        let fields := match aov_name with
          | some a => fields ++ [("aov_name", some (PVal.s a))]
          | none => fields
        match env.get_template_by_name tname with
        | none => Except.error Err.attributeError
        | some output_template =>
          match output_template.apply_fields
              (dictUpdate fields output_template.ctx_fields) with
          | Except.error e => Except.error e
          | Except.ok path => Except.ok (replaceSep env.osSep path)

/-- `TkArnoldNodeHandler._compute_and_set`: compute the output path,
catching only `sgtk.TankError` and substituting the placeholder string
"ERROR: " followed by the error message; then unlock, set, lock the
parameter. -/
def compute_and_set (env : Env) (node : Node) (parm_name template_name : String)
    (aov_name : Option String) : Except Err Node := do
  let path ←
    match compute_output_path env node template_name aov_name with
    | Except.ok p => Except.ok p
    | Except.error (Err.tankError msg) => Except.ok ("ERROR: " ++ msg)
    | Except.error e => Except.error e
  let n1 ← nodeLockParm node parm_name false
  let n2 ← nodeSetParm n1 parm_name (PVal.s path)
  nodeLockParm n2 parm_name true

/-- `_get_extra_plane_numbers`: `range(1, node.parm("ar_aovs").eval() + 1)`.
A missing parameter is `None.eval()` (`AttributeError`); a non-integer
count makes `eval + 1` a `TypeError`. -/
def get_extra_plane_numbers (node : Node) : Except Err (List Int) :=
  match parmFind node "ar_aovs" with
  | none => Except.error Err.attributeError
  | some p =>
      match evalP p with
      | PVal.i k => Except.ok (pyRange 1 (k + 1))
      | _ => Except.error Err.typeError

/-- `TkArnoldNodeHandler.update_parms`: copy the unexpanded string of each
toolkit parameter onto its Arnold counterpart, for the static mapping and
one entry per extra plane. -/
def update_parms (node : Node) : Except Err Node := do
  let copy_parm := fun (n : Node) (p1 p2 : String) => do
    match parmFind n p1 with
    | none => Except.error Err.attributeError
    | some src => do
        let raw ← unexpandedStringE src
        nodeSetParm n p2 (PVal.s raw)
  let n1 ← copy_parm node "sgtk_ass_diskfile" "ar_ass_file"
  let n2 ← copy_parm n1 "sgtk_ar_picture" "ar_picture"
  let planes ← get_extra_plane_numbers n2
  planes.foldlM (fun acc i =>
    copy_parm acc ("sgtk_ar_aov_separate_file" ++ toString i)
      ("ar_aov_separate_file" ++ toString i)) n2

/-- Tail of `reset_render_path` after the two static template parameters:
the per-plane separate-file paths, propagation of the canonical output path
into `sgtk_ar_picture` and `ar_picture`, and `update_parms`. -/
def reset_render_path_rest (env : Env) (node : Node) : Except Err Node := do
  let planes ← get_extra_plane_numbers node
  let n1 ← planes.foldlM (fun acc i => do
    match parmFind acc ("ar_aov_separate" ++ toString i) with
    | none => Except.error Err.attributeError
    | some usefile_parm =>
        if pyTruthy (evalP usefile_parm) then do
          let parm_name := String.replace "sgtk_ar_aov_separate_file#" "#" (toString i)
          match parmFind acc ("ar_aov_label" ++ toString i) with
          | none => Except.error Err.attributeError
          | some aov_parm => do
              let aov ← match evalP aov_parm with
                | PVal.s a => Except.ok a
                | _ => Except.error Err.typeError
              compute_and_set env acc parm_name "output_extra_plane_template" (some aov)
        else
          Except.ok acc) node
  let pathParm ← match parmFind n1 "sgtk_ar_filename" with
    | none => Except.error Err.attributeError
    | some p => Except.ok p
  let path ← unexpandedStringE pathParm
  let n2 ← nodeSetParm n1 "sgtk_ar_picture" (PVal.s path)
  let n3 ← nodeSetParm n2 "ar_picture" (PVal.s path)
  update_parms n3

/-- `TkArnoldNodeHandler.reset_render_path`: skip entirely when the node
name carries the "original0" duplication-in-progress prefix; otherwise
compute-and-set each (parameter, template) pair of
`TK_RENDER_TEMPLATE_MAPPING` in insertion order, then the per-plane and
output-path steps of `reset_render_path_rest`. -/
def reset_render_path (env : Env) (node : Node) : Except Err Node :=
  if pyStartsWith node.name "original0" then Except.ok node
  else do
    let n1 ← compute_and_set env node "sgtk_ass_diskfile" "output_ifd_template" none
    let n2 ← compute_and_set env n1 "sgtk_ar_filename" "output_render_template" none
    reset_render_path_rest env n2

/-- Python truthiness of the literal `None` (the guard of
`get_output_path_menu` is the constant test `if not None:`). -/
def noneIsTruthy : Bool := false

/-- `TkArnoldNodeHandler.get_output_path_menu`.  The guard `if not None:`
always rebinds `node` to `hou.pwd()`.  When the initialized flag reads
"True", the source executes `node.parm(is_first_run).set("False")`, passing
the boolean `is_first_run` where `hou.Node.parm` requires a parameter-name
string: that call raises (`TypeError`), modelled here as the error on the
first-run branch.  Otherwise the hip-path comparison gates
`reset_render_path` and re-caching of the hip path, and the menu is built
from the unexpanded output-path parameter. -/
def get_output_path_menu (env : Env) (pwd : Node) (nodeArg : Option Node) :
    Except Err (Node × List String) := do
  let node ← match (if noneIsTruthy then nodeArg else some pwd) with
    | some n => Except.ok n
    | none => Except.error Err.attributeError
  let initParm ← match parmFind node "sgtk_initialized" with
    | some p => Except.ok p
    | none => Except.error Err.attributeError
  let is_first_run := decide (evalP initParm = PVal.s "True")
  let node ← if is_first_run then Except.error Err.typeError else Except.ok node
  let hipParm ← match parmFind node "sgtk_hip_path" with
    | some p => Except.ok p
    | none => Except.error Err.attributeError
  let hip_path_changed := decide (¬ PVal.s env.hipPath = evalP hipParm)
  let node ←
    if is_first_run || hip_path_changed then do
      let n1 ← reset_render_path env node
      nodeSetParm n1 "sgtk_hip_path" (PVal.s env.hipPath)
    else Except.ok node
  let outParm ← match parmFind node "sgtk_ar_filename" with
    | some p => Except.ok p
    | none => Except.error Err.attributeError
  let path ← unexpandedStringE outParm
  Except.ok (node,
    ["sgtk", path, "ip", "mplay (interactive)", "md", "mplay (non-interactive)"])

/-! ## Parameter-value copy and node conversion -/

/-- An element of the `excludes` list handed to `_copy_parm_values`.
`convert_back_to_tk_arnold_nodes` passes a list of name strings (empty),
while `convert_to_regular_arnold_nodes` passes a list of `hou.Parm`
objects; Python's `parm.name() not in excludes` compares a `str` against
each element with `==`, and a `str` never equals a `hou.Parm` object. -/
inductive ExItem where
  | s : String → ExItem
  | pobj : String → ExItem
  deriving DecidableEq

/-- Whether `name` matches one exclude-list element under Python `==`. -/
def exMatches (name : String) (e : ExItem) : Bool :=
  match e with
  | ExItem.s v => name == v
  | ExItem.pobj _ => false

/-- `_copy_parm_values`: for each source parameter not excluded, skip
folder parameters, skip names the target lacks, copy all keyframes when the
source is keyed, copy the raw string for string parameters, and otherwise
copy the evaluated value — retrying a `TypeError` through the fixed
`["hscript", "python"]` lookup for names with the "lpre"/"lpost" script-
language prefixes, and re-raising any other `TypeError`. -/
def copy_parm_values (src tgt : Node) (excludes : List ExItem) :
    Except Err Node := do
  let source_parms := src.parms.filter
    (fun q => !(excludes.any (exMatches q.1)))
  source_parms.foldlM (fun acc q => do
    let pname := q.1
    let source_parm := q.2
    if source_parm.ptype = PType.folder then
      Except.ok acc
    else
      match parmFind acc pname with
      | none => Except.ok acc
      | some _ =>
          if keyframesOf source_parm ≠ [] then
            (keyframesOf source_parm).foldlM
              (fun a k => nodeSetKeyframe a pname k) acc
          else if source_parm.ptype = PType.strT then do
            let raw ← unexpandedStringE source_parm
            nodeSetParm acc pname (PVal.s raw)
          else
            match nodeSetParm acc pname (evalP source_parm) with
            | Except.ok a => Except.ok a
            | Except.error Err.typeError =>
                if pyStartsWith pname "lpre" || pyStartsWith pname "lpost" then do
                  let lang ← match evalP source_parm with
                    | PVal.i k => pyIndex ["hscript", "python"] k
                    | _ => Except.error Err.typeError
                  nodeSetParm acc pname (PVal.s lang)
                else Except.error Err.typeError
            | Except.error e => Except.error e) tgt

/-- Modelled from the spec: both node types wrap the same render-output
node, so they expose the same number of input connectors.  The node-type
definitions (the OTL) are not part of the sources under `src/`. -/
def numInputConnectors : Nat := 4

/-- `_copy_inputs` at node granularity, as used inside the conversion
pipeline: raise `hou.InvalidInput` naming both nodes when the source has
more active input connections than the target exposes input slots,
otherwise install each connection at its slot index on the target.  (The
connection-level embedding over a whole graph is `copy_inputs` below.) -/
def copyInputsN (src tgt : Node) (numTargetInputs : Nat) : Except Err Node :=
  if src.inputConns.length > numTargetInputs then
    Except.error (Err.invalidInput
      ("Not enough inputs on target node. Cannot copy inputs from '"
        ++ src.name ++ "' to '" ++ tgt.name ++ "'"))
  else
    Except.ok { tgt with inputConns := src.inputConns }

/-- Modelled from the spec: the parameter layout of a native Arnold render
node (the node-type definitions live outside `src/`).  Path and label
parameters are strings, counters and flags integers; nothing is locked. -/
def nativeDefaultParms : List (String × Parm) :=
  [("ar_ass_file", { ptype := PType.strT, val := PVal.s "", locked := false }),
   ("ar_picture", { ptype := PType.strT, val := PVal.s "", locked := false }),
   ("ar_aovs", { ptype := PType.intT, val := PVal.i 0, locked := false }),
   ("ar_aov_label1", { ptype := PType.strT, val := PVal.s "", locked := false }),
   ("ar_aov_label2", { ptype := PType.strT, val := PVal.s "", locked := false }),
   ("ar_aov_separate1", { ptype := PType.intT, val := PVal.i 0, locked := false }),
   ("ar_aov_separate2", { ptype := PType.intT, val := PVal.i 0, locked := false }),
   ("ar_aov_separate_file1", { ptype := PType.strT, val := PVal.s "", locked := false }),
   ("ar_aov_separate_file2", { ptype := PType.strT, val := PVal.s "", locked := false }),
   ("soho_mkpath", { ptype := PType.intT, val := PVal.i 1, locked := false })]

/-- Modelled from the spec: the parameter layout of a toolkit Arnold node —
the native parameters plus the toolkit-only ones (profile selector, cached
state, derived path fields, the latter locked against hand edits). -/
def tkDefaultParms : List (String × Parm) :=
  nativeDefaultParms ++
  [("sgtk_output_profile", { ptype := PType.intT, val := PVal.i 0, locked := false }),
   ("sgtk_initialized", { ptype := PType.strT, val := PVal.s "True", locked := false }),
   ("sgtk_hip_path", { ptype := PType.strT, val := PVal.s "", locked := false }),
   ("sgtk_ar_filename", { ptype := PType.strT, val := PVal.s "", locked := true }),
   ("sgtk_ass_diskfile", { ptype := PType.strT, val := PVal.s "", locked := true }),
   ("sgtk_ar_picture", { ptype := PType.strT, val := PVal.s "", locked := false }),
   ("sgtk_ar_aov_separate_file1", { ptype := PType.strT, val := PVal.s "", locked := true }),
   ("sgtk_ar_aov_separate_file2", { ptype := PType.strT, val := PVal.s "", locked := true })]

/-- `parent().createNode(...)` for a native Arnold node: a fresh node with
the default layout, default name and position, empty user data, no
connections. -/
def freshNativeNode : Node :=
  { name := "ifd1", pos := (0, 0), parms := nativeDefaultParms,
    userData := [], inputConns := [] }

/-- `parent().createNode(...)` for a toolkit Arnold node. -/
def freshTkNode : Node :=
  { name := "sgtk_arnold1", pos := (0, 0), parms := tkDefaultParms,
    userData := [], inputConns := [] }

/-- Tail of the toolkit-to-native loop body once the selected profile's
menu label is known: stash the label and every extra plane's label in the
sibling's user data, copy inputs, and take over the original's name and
position (the original is destroyed). -/
def convert_fwd_after_profile (t n1 : Node) (tk_output_profile_name : String) :
    Except Err Node := do
  let n2 := setUserData n1 "tk_output_profile_name" tk_output_profile_name
  let plane_numbers ← get_extra_plane_numbers t
  let n3 ← plane_numbers.foldlM (fun acc i => do
    let plane_parm_name := "ar_aov_label" ++ toString i
    match parmFind t plane_parm_name with
    | none => Except.error Err.attributeError
    | some p =>
        match evalP p with
        | PVal.s v => Except.ok (setUserData acc plane_parm_name v)
        | _ => Except.error Err.typeError) n2
  let n4 ← copyInputsN t n3 numInputConnectors
  Except.ok { n4 with name := t.name, pos := t.pos }

/-- Loop body of `convert_to_regular_arnold_nodes` for one toolkit node:
create a native sibling; copy parameters with the sgtk-prefixed parameters
as the exclude list (as `hou.Parm` objects); stash the selected profile's
menu label and every extra plane's label in the sibling's user data; copy
inputs; finally give the sibling the original's name and position (the
original is destroyed).  Moving the outputs rewires only downstream nodes
and is embedded at graph level as `move_outputs`. -/
def convert_to_regular_one (menuLabels : List String) (t : Node) :
    Except Err Node := do
  let n0 := freshNativeNode
  let exclude_parms := (t.parms.filter (fun q => pyStartsWith q.1 "sgtk_")).map
    (fun q => ExItem.pobj q.1)
  let n1 ← copy_parm_values t n0 exclude_parms
  let tk_output_profile_name ←
    match parmFind t "sgtk_output_profile" with
    | none => Except.error Err.attributeError
    | some p =>
        match evalP p with
        | PVal.i k => pyIndex menuLabels k
        | _ => Except.error Err.typeError
  convert_fwd_after_profile t n1 tk_output_profile_name

/-- Tail of the native-to-toolkit loop body once the parameters have been
copied: restore every extra plane's label from the original's user data,
copy inputs, and take over the original's name and position. -/
def convert_bwd_after_copy (n t2 : Node) : Except Err (Option Node) := do
  let plane_numbers ← get_extra_plane_numbers n
  let t3 ← plane_numbers.foldlM (fun acc i => do
    let plane_parm_name := "ar_aov_label" ++ toString i
    match parmFind acc plane_parm_name with
    | none => Except.error Err.attributeError
    | some _ =>
        match n.userData.lookup plane_parm_name with
        | some aov_name => nodeSetParm acc plane_parm_name (PVal.s aov_name)
        | none => Except.error Err.typeError) t2
  let t4 ← copyInputsN n t3 numInputConnectors
  Except.ok (some { t4 with name := n.name, pos := n.pos })

/-- Middle of the native-to-toolkit loop body: copy all parameters from the
original onto the toolkit sibling, then restore labels and connections. -/
def convert_bwd_after_index (n t1 : Node) : Except Err (Option Node) := do
  let t2 ← copy_parm_values n t1 []
  convert_bwd_after_copy n t2

/-- Body of the native-to-toolkit conversion for a node whose stored
profile name is known: create the toolkit sibling, select its profile
entry by the stored label (leaving the default and warning on
`ValueError`), then copy parameters and restore the rest. -/
def convert_bwd_build (menuLabels : List String) (n : Node)
    (tk_output_profile_name : String) : Except Err (Option Node) := do
  let t0 := freshTkNode
  let t1 ←
    match parmFind t0 "sgtk_output_profile" with
    | none => Except.error Err.attributeError
    | some _ =>
        match pyListIndex menuLabels tk_output_profile_name with
        | Except.ok idx => nodeSetParm t0 "sgtk_output_profile" (PVal.i idx)
        | Except.error Err.valueError => Except.ok t0
        | Except.error e => Except.error e
  convert_bwd_after_index n t1

/-- Loop body of `convert_back_to_tk_arnold_nodes` for one native node:
read the stashed profile name from the user data and skip the node (with a
warning) when it is absent or empty; otherwise create a toolkit sibling,
select its profile entry by the stored label (leaving the default and
warning on `ValueError`), copy all parameters, restore each extra plane's
label from the user data (`dict.get` may hand `None` to `parm.set`), copy
inputs, and give the sibling the original's name and position. -/
def convert_back_one (menuLabels : List String) (n : Node) :
    Except Err (Option Node) :=
  match n.userData.lookup "tk_output_profile_name" with
  | none => Except.ok none
  | some tk_output_profile_name =>
      if tk_output_profile_name = "" then Except.ok none
      else convert_bwd_build menuLabels n tk_output_profile_name

/-- `convert_back_to_tk_arnold_nodes` over the session's list of native
Arnold node instances: each node is converted independently; a skipped node
stays in the session unchanged, a converted node is replaced by its toolkit
sibling, and an exception aborts the remainder of the batch. -/
def convert_back_to_tk_arnold_nodes (menuLabels : List String) :
    List Node → Except Err (List Node)
  | [] => Except.ok []
  | n :: rest => do
      let r ← convert_back_one menuLabels n
      let rest' ← convert_back_to_tk_arnold_nodes menuLabels rest
      match r with
      | none => Except.ok (n :: rest')
      | some t => Except.ok (t :: rest')

/-! ## Connection copy and move over the node graph -/

/-- The active input connections of a node given its input slots
(`node.inputConnections()`): the pairs of slot index and upstream node for
every occupied slot, in slot order. -/
def inputConnsOf (slots : List (Option String)) : List (Nat × String) :=
  (List.range slots.length).filterMap (fun i =>
    match slots.get? i with
    | some (some up) => some (i, up)
    | _ => none)

/-- `_copy_inputs(source_node, target_node)`: raise `hou.InvalidInput`
naming both nodes — before touching any connection — when the source has
strictly more active input connections than the target exposes input
connectors; otherwise `setInput` each connection at its own slot index on
the target. -/
def copy_inputs (srcName : String) (srcSlots : List (Option String))
    (tgtName : String) (tgtSlots : List (Option String)) :
    Except Err (List (Option String)) :=
  let input_connections := inputConnsOf srcSlots
  let num_target_inputs := tgtSlots.length
  if input_connections.length > num_target_inputs then
    Except.error (Err.invalidInput
      ("Not enough inputs on target node. Cannot copy inputs from '"
        ++ srcName ++ "' to '" ++ tgtName ++ "'"))
  else
    Except.ok (input_connections.foldl
      (fun acc q => acc.set q.1 (some q.2)) tgtSlots)

/-- A node graph for connection rewiring: each node's name with its input
slots (an occupied slot holds the upstream node's name). -/
abbrev Graph : Type := List (String × List (Option String))

/-- The value of input slot `i` of node `d` in the graph. -/
def slotVal (g : Graph) (d : String) (i : Nat) : Option (Option String) :=
  ((g.lookup d).getD []).get? i

/-- `source_node.outputConnections()`: every (downstream node, input index)
pair whose slot holds the source. -/
def outputConnections (g : Graph) (src : String) : List (String × Nat) :=
  g.flatMap (fun q =>
    (List.range q.2.length).filterMap (fun i =>
      if q.2.get? i = some (some src) then some (q.1, i) else none))

/-- `node.setInput(i, upstream)` applied inside the graph. -/
def graphSetInput (g : Graph) (d : String) (i : Nat) (v : Option String) :
    Graph :=
  g.map (fun q => if q.1 = d then (q.1, q.2.set i v) else q)

/-- `_move_outputs(source_node, target_node)`: for every output connection
of the source, rewire the downstream node's input at the connection's input
index to the target. -/
def move_outputs (g : Graph) (src tgt : String) : Graph :=
  (outputConnections g src).foldl
    (fun acc q => graphSetInput acc q.1 q.2 (some tgt)) g

/-! ## Helper lemmas -/

theorem exbind_ok {α β : Type} (a : α) (f : α → Except Err β) :
    Except.bind (Except.ok a) f = f a := rfl

theorem exbind_err {α β : Type} (e : Err) (f : α → Except Err β) :
    Except.bind (Except.error e) f = Except.error e := rfl

/-- A sample environment whose scene file is not recognised by any
work-file template. -/
def envBad : Env :=
  { hipPath := "/tmp/untitled.hip",
    work_file_template := none,
    menuLabels := ["beauty"],
    output_profiles :=
      [("beauty",
        [("output_render_template", "shot_render"),
         ("output_ifd_template", "shot_ifd"),
         ("output_extra_plane_template", "shot_plane")])],
    get_template_by_name := fun _ => none,
    osSep := '/' }

/-- A sample output template resolving to a Windows-style path. -/
def tmplGood : OTemplate :=
  { apply_fields := fun _ => Except.ok "C:\\proj\\shots\\sh010\\render.exr",
    ctx_fields := [] }

/-- A sample environment on a Windows-style platform whose work-file
template recognises the scene file. -/
def envGood : Env :=
  { hipPath := "C:\\proj\\work\\sh010.v003.hip",
    work_file_template := some
      { validate := fun _ => true,
        get_fields := fun _ => [("name", "sh010"), ("version", "3")] },
    menuLabels := ["beauty"],
    output_profiles :=
      [("beauty",
        [("output_render_template", "shot_render"),
         ("output_ifd_template", "shot_ifd"),
         ("output_extra_plane_template", "shot_plane")])],
    get_template_by_name := fun _ => some tmplGood,
    osSep := '\\' }

/-! ## Claim theorems -/

/-- C7: for every node whose name starts with the duplication-in-progress
prefix "original0", `reset_render_path` returns immediately and performs no
parameter writes on the node. -/
theorem c7_reset_render_path_skips_duplicating_node (env : Env) (node : Node)
    (h : pyStartsWith node.name "original0" = true) :
    reset_render_path env node = Except.ok node := by
  simp [reset_render_path, h]

theorem c7_witness :
    (pyStartsWith "original0_arnold1" "original0" = true) ∧
      reset_render_path envBad
        { name := "original0_arnold1", pos := (0, 0), parms := tkDefaultParms,
          userData := [], inputConns := [] } =
        Except.ok
          { name := "original0_arnold1", pos := (0, 0), parms := tkDefaultParms,
            userData := [], inputConns := [] } :=
  ⟨by decide, c7_reset_render_path_skips_duplicating_node envBad _ (by decide)⟩

/-- C10: `get_output_path_menu` ignores its node argument — the guard
`if not None:` is constant-true, so the node is always re-bound to
`hou.pwd()` and the result never depends on the supplied argument. -/
theorem c10_get_output_path_menu_ignores_argument (env : Env) (pwd : Node)
    (a b : Option Node) :
    get_output_path_menu env pwd a = get_output_path_menu env pwd b ∧
      get_output_path_menu env pwd a = get_output_path_menu env pwd (some pwd) :=
  ⟨rfl, rfl⟩

/-- C2 (code bug): on a node whose initialized flag evaluates to "True",
`get_output_path_menu` executes `node.parm(is_first_run).set("False")`,
passing the boolean `is_first_run` instead of the parameter name, so the
call raises instead of clearing the flag; the menu query fails and the
`sgtk_initialized` parameter is never set to "False". -/
theorem c2_get_output_path_menu_first_run_raises :
    evalP { ptype := PType.strT, val := PVal.s "True", locked := false } = PVal.s "True" ∧
      parmFind freshTkNode "sgtk_initialized" =
        some { ptype := PType.strT, val := PVal.s "True", locked := false } ∧
      get_output_path_menu envBad freshTkNode none = Except.error Err.typeError :=
  ⟨rfl, by decide, rfl⟩

/-- C9: a native node whose user-data store holds no profile-name entry is
skipped by `convert_back_to_tk_arnold_nodes`: it stays in the session
unchanged (not destroyed, no toolkit sibling created for it) and the
remaining nodes are processed exactly as they would be without it. -/
theorem c9_convert_back_skips_missing_profile_name (menuLabels : List String)
    (n : Node) (rest : List Node)
    (h : n.userData.lookup "tk_output_profile_name" = none) :
    convert_back_to_tk_arnold_nodes menuLabels (n :: rest) =
      (convert_back_to_tk_arnold_nodes menuLabels rest).map
        (fun converted => n :: converted) := by
  have h1 : convert_back_one menuLabels n = Except.ok none := by
    simp [convert_back_one, h]
  simp only [convert_back_to_tk_arnold_nodes, h1]
  cases convert_back_to_tk_arnold_nodes menuLabels rest <;> rfl

/-- A native Arnold node carrying a stashed profile name and plane label,
as produced by an earlier toolkit-to-native conversion. -/
def nativeWithProfile : Node :=
  { freshNativeNode with
      userData := [("tk_output_profile_name", "beauty")] }

theorem c9_witness :
    freshNativeNode.userData.lookup "tk_output_profile_name" = none ∧
      convert_back_to_tk_arnold_nodes ["beauty"]
          [freshNativeNode, nativeWithProfile] =
        (convert_back_to_tk_arnold_nodes ["beauty"] [nativeWithProfile]).map
          (fun converted => freshNativeNode :: converted) :=
  ⟨rfl, c9_convert_back_skips_missing_profile_name ["beauty"] freshNativeNode
    [nativeWithProfile] rfl⟩

/-- A node holding a single parameter, for exercising the parameter-copy
special cases. -/
def mkOneParmNode (nm : String) (t : PType) (v : PVal) : Node :=
  { name := "n1", pos := (0, 0),
    parms := [(nm, { ptype := t, val := v, locked := false })],
    userData := [], inputConns := [] }

/-- C8: in `_copy_parm_values`, when the plain value copy of a parameter
whose name carries the "lpre"/"lpost" script-language prefixes hits a type
mismatch (integer source onto string target), source value 0 writes
"hscript" and source value 1 writes "python"; the same mismatch on any
other parameter name propagates as a hard `TypeError`. -/
theorem c8_copy_parm_values_script_language_fallback :
    (∀ nm tv, (pyStartsWith nm "lpre" = true ∨ pyStartsWith nm "lpost" = true) →
      copy_parm_values (mkOneParmNode nm PType.intT (PVal.i 0))
          (mkOneParmNode nm PType.strT (PVal.s tv)) [] =
        Except.ok (mkOneParmNode nm PType.strT (PVal.s "hscript")) ∧
      copy_parm_values (mkOneParmNode nm PType.intT (PVal.i 1))
          (mkOneParmNode nm PType.strT (PVal.s tv)) [] =
        Except.ok (mkOneParmNode nm PType.strT (PVal.s "python"))) ∧
    (∀ nm tv k, pyStartsWith nm "lpre" = false → pyStartsWith nm "lpost" = false →
      copy_parm_values (mkOneParmNode nm PType.intT (PVal.i k))
          (mkOneParmNode nm PType.strT (PVal.s tv)) [] =
        Except.error Err.typeError) := by
  constructor
  · intro nm tv h
    rcases h with h | h <;>
      constructor <;>
        simp [copy_parm_values, mkOneParmNode, parmFind, nodeSetParm,
          parmSetVal, keyframesOf, evalP, pyIndex, h, List.lookup, Except.map, Except.instMonad, Except.bind, Except.pure]
  · intro nm tv k h1 h2
    simp [copy_parm_values, mkOneParmNode, parmFind, nodeSetParm,
      parmSetVal, keyframesOf, evalP, h1, h2, List.lookup, Except.map]

theorem c8_witness :
    (pyStartsWith "lpre_render" "lpre" = true ∨
      pyStartsWith "lpre_render" "lpost" = true) ∧
    (pyStartsWith "vm_device" "lpre" = false ∧
      pyStartsWith "vm_device" "lpost" = false) ∧
    (copy_parm_values (mkOneParmNode "lpre_render" PType.intT (PVal.i 0))
        (mkOneParmNode "lpre_render" PType.strT (PVal.s "old")) [] =
      Except.ok (mkOneParmNode "lpre_render" PType.strT (PVal.s "hscript"))) ∧
    (copy_parm_values (mkOneParmNode "lpre_render" PType.intT (PVal.i 1))
        (mkOneParmNode "lpre_render" PType.strT (PVal.s "old")) [] =
      Except.ok (mkOneParmNode "lpre_render" PType.strT (PVal.s "python"))) ∧
    (copy_parm_values (mkOneParmNode "vm_device" PType.intT (PVal.i 0))
        (mkOneParmNode "vm_device" PType.strT (PVal.s "old")) [] =
      Except.error Err.typeError) :=
  ⟨Or.inl (by decide), ⟨by decide, by decide⟩,
    (c8_copy_parm_values_script_language_fallback.1 "lpre_render" "old"
      (Or.inl (by decide))).1,
    (c8_copy_parm_values_script_language_fallback.1 "lpre_render" "old"
      (Or.inl (by decide))).2,
    c8_copy_parm_values_script_language_fallback.2 "vm_device" "old" 0
      (by decide) (by decide)⟩

/-- Slots outside the written index set are untouched by the copy fold. -/
theorem foldl_set_get_not_mem (L : List (Nat × String))
    (init : List (Option String)) (i : Nat) (h : i ∉ L.map Prod.fst) :
    (L.foldl (fun acc q => acc.set q.1 (some q.2)) init).get? i = init.get? i := by
  induction L generalizing init with
  | nil => rfl
  | cons q L ih =>
      simp only [List.map_cons, List.mem_cons, not_or] at h
      simp only [List.foldl_cons]
      rw [ih (init.set q.1 (some q.2)) h.2]
      exact List.get?_set_ne _ _ (fun hq => h.1 hq.symm)

/-- Each written pair lands at its own index, provided indices are distinct
and in range. -/
theorem foldl_set_get_mem (L : List (Nat × String))
    (init : List (Option String)) (hnd : (L.map Prod.fst).Nodup)
    (i : Nat) (up : String) (hmem : (i, up) ∈ L) (hlen : i < init.length) :
    (L.foldl (fun acc q => acc.set q.1 (some q.2)) init).get? i =
      some (some up) := by
  induction L generalizing init with
  | nil => cases hmem
  | cons q L ih =>
      simp only [List.map_cons, List.nodup_cons] at hnd
      simp only [List.foldl_cons]
      rcases List.mem_cons.mp hmem with hq | hq
      · subst hq
        rw [foldl_set_get_not_mem L _ i hnd.1]
        exact List.get?_set_eq_of_lt _ hlen
      · exact ih (init.set q.1 (some q.2)) hnd.2 hq (by simpa using hlen)

/-- Every active connection of `inputConnsOf` reads back from the slots. -/
theorem inputConnsOf_sound (slots : List (Option String)) (i : Nat)
    (up : String) (h : (i, up) ∈ inputConnsOf slots) :
    slots.get? i = some (some up) := by
  simp only [inputConnsOf, List.mem_filterMap, List.mem_range] at h
  rcases h with ⟨a, _, ha⟩
  cases hs : slots.get? a with
  | none => rw [hs] at ha; cases ha
  | some v =>
      cases v with
      | none => rw [hs] at ha; cases ha
      | some u =>
          rw [hs] at ha
          cases ha
          exact hs

/-- The index reported for a connection is the slot it was read from. -/
theorem connIdx_eq (slots : List (Option String)) (a b : Nat)
    (hb : b ∈ Option.map Prod.fst
      (match slots.get? a with
       | some (some up) => some (a, up)
       | _ => none)) : b = a := by
  cases hs : slots.get? a with
  | none => rw [hs] at hb; simp at hb
  | some v =>
      cases v with
      | none => rw [hs] at hb; simp at hb
      | some u => rw [hs] at hb; exact (by simpa using hb : a = b).symm

/-- The connection indices produced by `inputConnsOf` are distinct. -/
theorem inputConnsOf_fst_nodup (slots : List (Option String)) :
    ((inputConnsOf slots).map Prod.fst).Nodup := by
  unfold inputConnsOf
  rw [List.map_filterMap]
  refine List.Nodup.filterMap ?_ (List.nodup_range _)
  intro a a' b hb hb'
  exact (connIdx_eq slots a b hb).symm.trans (connIdx_eq slots a' b hb')

/-- C4: `_copy_inputs` raises the "invalid input" condition naming both
nodes — and mutates nothing — whenever the source has strictly more active
input connections than the target exposes input slots; otherwise it copies
each input connection to the target at its own slot index. -/
theorem c4_copy_inputs_guard_and_copy (srcName tgtName : String)
    (srcSlots tgtSlots : List (Option String)) :
    ((inputConnsOf srcSlots).length > tgtSlots.length →
      copy_inputs srcName srcSlots tgtName tgtSlots =
        Except.error (Err.invalidInput
          ("Not enough inputs on target node. Cannot copy inputs from '"
            ++ srcName ++ "' to '" ++ tgtName ++ "'"))) ∧
    (¬ (inputConnsOf srcSlots).length > tgtSlots.length →
      (∀ i up, (i, up) ∈ inputConnsOf srcSlots → i < tgtSlots.length) →
      ∃ out, copy_inputs srcName srcSlots tgtName tgtSlots = Except.ok out ∧
        ∀ i up, (i, up) ∈ inputConnsOf srcSlots →
          out.get? i = some (some up)) := by
  constructor
  · intro h
    simp [copy_inputs, h]
  · intro h hrange
    refine ⟨(inputConnsOf srcSlots).foldl
      (fun acc q => acc.set q.1 (some q.2)) tgtSlots, by simp [copy_inputs, h], ?_⟩
    intro i up hm
    exact foldl_set_get_mem _ _ (inputConnsOf_fst_nodup _) i up hm (hrange i up hm)

theorem c4_witness :
    ((inputConnsOf [some "a", some "b", some "c"]).length > ([none, none] : List (Option String)).length ∧
      copy_inputs "tk1" [some "a", some "b", some "c"] "ifd1" [none, none] =
        Except.error (Err.invalidInput
          ("Not enough inputs on target node. Cannot copy inputs from '"
            ++ "tk1" ++ "' to '" ++ "ifd1" ++ "'"))) ∧
    (∃ out, copy_inputs "tk1" [some "a", some "b"] "ifd1" [none, none] =
        Except.ok out ∧
      ∀ i up, (i, up) ∈ inputConnsOf [some "a", some "b"] →
        out.get? i = some (some up)) :=
  ⟨⟨by decide,
    (c4_copy_inputs_guard_and_copy "tk1" "ifd1" [some "a", some "b", some "c"]
      [none, none]).1 (by decide)⟩,
    (c4_copy_inputs_guard_and_copy "tk1" "ifd1" [some "a", some "b"]
      [none, none]).2 (by decide)
      (by
        intro i up hm
        have he : inputConnsOf [some "a", some "b"] = [(0, "a"), (1, "b")] := by
          decide
        rw [he] at hm
        simp only [List.mem_cons, List.not_mem_nil, or_false, Prod.mk.injEq] at hm
        rcases hm with ⟨h1, _⟩ | ⟨h1, _⟩ <;> subst h1 <;> decide)⟩

/-- `List.lookup` through `graphSetInput`: only the rewired node's slot list
changes. -/
theorem lookup_graphSetInput (g : Graph) (d : String) (i : Nat)
    (v : Option String) (x : String) :
    (graphSetInput g d i v).lookup x =
      (g.lookup x).map (fun ins => if x = d then ins.set i v else ins) := by
  induction g with
  | nil => rfl
  | cons p t ih =>
      obtain ⟨n, ins⟩ := p
      have hgs : graphSetInput ((n, ins) :: t) d i v =
          (if n = d then (n, ins.set i v) else (n, ins)) :: graphSetInput t d i v := by
        simp [graphSetInput]
      rw [hgs]
      by_cases hn : n = d
      · rw [if_pos hn]
        by_cases hx : x = n
        · subst hx
          rw [List.lookup_cons, List.lookup_cons, beq_self_eq_true]
          subst hn
          simp
        · rw [List.lookup_cons, List.lookup_cons, beq_false_of_ne hx]
          exact ih
      · rw [if_neg hn]
        by_cases hx : x = n
        · subst hx
          rw [List.lookup_cons, List.lookup_cons, beq_self_eq_true]
          simp [hn]
        · rw [List.lookup_cons, List.lookup_cons, beq_false_of_ne hx]
          exact ih

/-- `slotVal` through `graphSetInput`. -/
theorem slotVal_graphSetInput (g : Graph) (d : String) (i : Nat)
    (v : Option String) (d' : String) (i' : Nat) :
    slotVal (graphSetInput g d i v) d' i' =
      if d' = d then (((g.lookup d').getD []).set i v).get? i'
      else slotVal g d' i' := by
  unfold slotVal
  rw [lookup_graphSetInput]
  cases hg : g.lookup d' with
  | none => by_cases h : d' = d <;> simp [h]
  | some ins => by_cases h : d' = d <;> simp [h]

/-- `graphSetInput` preserves the graph's node names. -/
theorem graphSetInput_keys (g : Graph) (d : String) (i : Nat)
    (v : Option String) :
    (graphSetInput g d i v).map Prod.fst = g.map Prod.fst := by
  unfold graphSetInput
  rw [List.map_map]
  refine List.map_congr_left ?_
  intro q _
  by_cases h : q.1 = d <;> simp [h]

/-- The rewiring fold preserves the graph's node names. -/
theorem foldl_rewire_keys (L : List (String × Nat)) (g : Graph)
    (tgt : String) :
    ((L.foldl (fun acc q => graphSetInput acc q.1 q.2 (some tgt)) g).map
      Prod.fst) = g.map Prod.fst := by
  induction L generalizing g with
  | nil => rfl
  | cons q L ih => rw [List.foldl_cons, ih, graphSetInput_keys]

/-- A defined slot value pins down the node's slot list and bounds the
index. -/
theorem slotVal_some (g : Graph) (d : String) (i : Nat) (w : Option String)
    (h : slotVal g d i = some w) :
    ∃ ins, g.lookup d = some ins ∧ i < ins.length ∧ ins.get? i = some w := by
  unfold slotVal at h
  cases hg : g.lookup d with
  | none => rw [hg] at h; simp at h
  | some ins =>
      rw [hg] at h
      simp only [Option.getD_some] at h
      refine ⟨ins, rfl, ?_, h⟩
      by_contra hlt
      rw [List.get?_eq_none.mpr (Nat.not_lt.mp hlt)] at h
      cases h

/-- The effect of the whole rewiring fold on one slot: slots listed in the
fold read the new upstream node, all others are untouched. -/
theorem foldl_rewire_slotVal (L : List (String × Nat)) (g : Graph)
    (tgt : String)
    (hL : ∀ q ∈ L, ∃ ins, g.lookup q.1 = some ins ∧ q.2 < ins.length)
    (d : String) (i : Nat) :
    slotVal (L.foldl (fun acc q => graphSetInput acc q.1 q.2 (some tgt)) g) d i =
      if (d, i) ∈ L then some (some tgt) else slotVal g d i := by
  induction L generalizing g with
  | nil => simp
  | cons q L ih =>
      simp only [List.foldl_cons]
      have hL' : ∀ r ∈ L, ∃ ins,
          (graphSetInput g q.1 q.2 (some tgt)).lookup r.1 = some ins ∧
            r.2 < ins.length := by
        intro r hr
        obtain ⟨ins, hins, hlen⟩ := hL r (List.mem_cons_of_mem _ hr)
        refine ⟨if r.1 = q.1 then ins.set q.2 (some tgt) else ins, ?_, ?_⟩
        · rw [lookup_graphSetInput, hins]
          by_cases h : r.1 = q.1 <;> simp [h]
        · by_cases h : r.1 = q.1 <;> simp [h, hlen]
      rw [ih _ hL']
      by_cases hmem : (d, i) ∈ L
      · simp [hmem, List.mem_cons_of_mem]
      · rw [if_neg hmem, slotVal_graphSetInput]
        by_cases hd : d = q.1
        · by_cases hi : i = q.2
          · obtain ⟨ins, hins, hlen⟩ := hL q (List.mem_cons_self _ _)
            have hq : (d, i) = q := by rw [Prod.ext_iff]; exact ⟨hd, hi⟩
            rw [if_pos hd, if_pos (by simp [hq]), hd, hins]
            simp only [Option.getD_some]
            rw [hi]
            exact List.get?_set_eq_of_lt _ hlen
          · have hnc : (d, i) ∉ q :: L := by
              intro hc
              rcases List.mem_cons.mp hc with hc | hc
              · exact hi (congrArg Prod.snd hc)
              · exact hmem hc
            rw [if_pos hd, if_neg hnc, List.get?_set_ne _ _ (fun h => hi h.symm)]
            unfold slotVal
            rw [hd]
        · have hnc : (d, i) ∉ q :: L := by
            intro hc
            rcases List.mem_cons.mp hc with hc | hc
            · exact hd (congrArg Prod.fst hc)
            · exact hmem hc
          rw [if_neg hd, if_neg hnc]

/-- With distinct node names, membership pins down the lookup result. -/
theorem lookup_eq_of_mem_nodup (g : Graph) (d : String)
    (b : List (Option String)) (hnd : (g.map Prod.fst).Nodup)
    (h : (d, b) ∈ g) : g.lookup d = some b := by
  induction g with
  | nil => cases h
  | cons p t ih =>
      obtain ⟨n, ins⟩ := p
      simp only [List.map_cons, List.nodup_cons] at hnd
      rcases List.mem_cons.mp h with hc | hc
      · obtain ⟨h1, h2⟩ := Prod.mk.injEq .. ▸ hc
        subst h1; subst h2
        rw [List.lookup_cons, beq_self_eq_true]
      · have hne : ¬ d = n := by
          intro he
          subst he
          exact hnd.1 (List.mem_map.mpr ⟨(d, b), hc, rfl⟩)
        rw [List.lookup_cons, beq_false_of_ne hne]
        exact ih hnd.2 hc

/-- A successful lookup comes from a member of the list. -/
theorem mem_of_lookup_eq_some (g : Graph) (d : String)
    (b : List (Option String)) (h : g.lookup d = some b) : (d, b) ∈ g := by
  induction g with
  | nil => cases h
  | cons p t ih =>
      obtain ⟨n, ins⟩ := p
      rw [List.lookup_cons] at h
      by_cases hd : d = n
      · subst hd
        rw [beq_self_eq_true] at h
        cases h
        exact List.mem_cons_self _ _
      · rw [beq_false_of_ne hd] at h
        exact List.mem_cons_of_mem _ (ih h)

/-- Characterisation of `outputConnections` membership for graphs with
distinct node names. -/
theorem mem_outputConnections (g : Graph) (hnd : (g.map Prod.fst).Nodup)
    (src d : String) (i : Nat) :
    (d, i) ∈ outputConnections g src ↔ slotVal g d i = some (some src) := by
  constructor
  · intro h
    simp only [outputConnections, List.mem_flatMap] at h
    obtain ⟨p, hp, hm⟩ := h
    simp only [List.mem_filterMap, List.mem_range] at hm
    obtain ⟨a, _, hfa⟩ := hm
    by_cases hc : p.2.get? a = some (some src)
    · rw [if_pos hc] at hfa
      have hpair := Option.some.inj hfa
      obtain ⟨h1, h2⟩ := Prod.mk.injEq .. ▸ hpair
      unfold slotVal
      rw [lookup_eq_of_mem_nodup g d p.2 hnd (by rw [← h1]; exact hp)]
      simp only [Option.getD_some]
      rw [← h2]
      exact hc
    · rw [if_neg hc] at hfa
      cases hfa
  · intro h
    obtain ⟨ins, hlk, hlt, hget⟩ := slotVal_some g d i (some src) h
    simp only [outputConnections, List.mem_flatMap]
    refine ⟨(d, ins), mem_of_lookup_eq_some g d ins hlk, ?_⟩
    simp only [List.mem_filterMap, List.mem_range]
    exact ⟨i, hlt, by rw [if_pos hget]⟩

/-- C6: after `_move_outputs`, every downstream node that was connected to
one of the source's outputs is connected to the target at the identical
input slot index, and the source is left with zero outward connections. -/
theorem c6_move_outputs_rewires_and_clears (g : Graph) (src tgt : String)
    (hnd : (g.map Prod.fst).Nodup) (hne : src ≠ tgt) :
    (∀ d i, (d, i) ∈ outputConnections g src →
      slotVal (move_outputs g src tgt) d i = some (some tgt)) ∧
    outputConnections (move_outputs g src tgt) src = [] := by
  have hL : ∀ q ∈ outputConnections g src,
      ∃ ins, g.lookup q.1 = some ins ∧ q.2 < ins.length := by
    intro q hq
    have hs := (mem_outputConnections g hnd src q.1 q.2).mp hq
    obtain ⟨ins, hlk, hlt, _⟩ := slotVal_some g q.1 q.2 (some src) hs
    exact ⟨ins, hlk, hlt⟩
  constructor
  · intro d i hm
    rw [move_outputs, foldl_rewire_slotVal _ _ _ hL, if_pos hm]
  · rw [List.eq_nil_iff_forall_not_mem]
    intro q hq
    obtain ⟨d, i⟩ := q
    have hnd' : ((move_outputs g src tgt).map Prod.fst).Nodup := by
      rw [move_outputs, foldl_rewire_keys]
      exact hnd
    have hs := (mem_outputConnections _ hnd' src d i).mp hq
    rw [move_outputs, foldl_rewire_slotVal _ _ _ hL] at hs
    by_cases hm : (d, i) ∈ outputConnections g src
    · rw [if_pos hm] at hs
      exact hne (Option.some.inj (Option.some.inj hs)).symm
    · rw [if_neg hm] at hs
      exact hm ((mem_outputConnections g hnd src d i).mpr hs)

/-- A small render graph: two downstream nodes read from "rop_a". -/
def gW : Graph :=
  [("rop_a", []), ("comp1", [some "rop_a"]), ("out2", [none, some "rop_a"])]

theorem c6_witness :
    (gW.map Prod.fst).Nodup ∧ "rop_a" ≠ "rop_b" ∧
      ((∀ d i, (d, i) ∈ outputConnections gW "rop_a" →
        slotVal (move_outputs gW "rop_a" "rop_b") d i = some (some "rop_b")) ∧
      outputConnections (move_outputs gW "rop_a" "rop_b") "rop_a" = []) :=
  ⟨by decide, by decide,
    c6_move_outputs_rewires_and_clears gW "rop_a" "rop_b" (by decide) (by decide)⟩

/-- The evaluated value stored for a named parameter of a node. -/
def parmVal (n : Node) (key : String) : Option PVal :=
  (parmFind n key).map Parm.val

/-- `List.lookup` through an in-place update of one key's value. -/
theorem lookup_map_update {β : Type} (l : List (String × β)) (key : String)
    (p' : β) (q : String) :
    (l.map (fun r => if r.1 = key then (r.1, p') else r)).lookup q =
      (l.lookup q).map (fun p => if q = key then p' else p) := by
  induction l with
  | nil => rfl
  | cons r t ih =>
      obtain ⟨n, b⟩ := r
      have hh : (((n, b) :: t).map (fun r => if r.1 = key then (r.1, p') else r)) =
          (if n = key then (n, p') else (n, b)) ::
            t.map (fun r => if r.1 = key then (r.1, p') else r) := by
        simp
      rw [hh]
      by_cases hn : n = key
      · rw [if_pos hn]
        by_cases hq : q = n
        · subst hq
          rw [List.lookup_cons, List.lookup_cons, beq_self_eq_true]
          subst hn
          simp
        · rw [List.lookup_cons, List.lookup_cons, beq_false_of_ne hq]
          exact ih
      · rw [if_neg hn]
        by_cases hq : q = n
        · subst hq
          rw [List.lookup_cons, List.lookup_cons, beq_self_eq_true]
          simp [hn]
        · rw [List.lookup_cons, List.lookup_cons, beq_false_of_ne hq]
          exact ih

/-- C5: when computing a render path for a (parameter, template) pair fails
with a toolkit `TankError`, `_compute_and_set` catches it, writes
"ERROR: " followed by the message into the (re-locked) parameter, and
returns normally; and `reset_render_path` is exactly the sequence of the
two `_compute_and_set` calls followed by the remaining steps, so the
operation continues with the remaining parameters. -/
theorem c5_compute_and_set_catches_tank_error :
    (∀ (env : Env) (node : Node) (pname tname : String) (aov : Option String)
      (msg : String) (pm : Parm),
      compute_output_path env node tname aov =
        Except.error (Err.tankError msg) →
      parmFind node pname = some pm → pm.ptype = PType.strT →
      ∃ n', compute_and_set env node pname tname aov = Except.ok n' ∧
        parmFind n' pname = some
          { ptype := PType.strT, val := PVal.s ("ERROR: " ++ msg),
            locked := true }) ∧
    (∀ (env : Env) (node : Node),
      pyStartsWith node.name "original0" = false →
      reset_render_path env node =
        Except.bind
          (compute_and_set env node "sgtk_ass_diskfile" "output_ifd_template" none)
          (fun n1 => Except.bind
            (compute_and_set env n1 "sgtk_ar_filename" "output_render_template" none)
            (reset_render_path_rest env))) := by
  constructor
  · intro env node pname tname aov msg pm hc hp hpt
    obtain ⟨pt, pv, plk⟩ := pm
    simp only at hpt
    subst hpt
    have e1 : nodeLockParm node pname false = Except.ok
        { node with parms := node.parms.map (fun r =>
          if r.1 = pname then (r.1, { ptype := PType.strT, val := pv, locked := false }) else r) } := by
      unfold nodeLockParm
      rw [hp]
    have f1 : parmFind
        { node with parms := node.parms.map (fun r =>
          if r.1 = pname then (r.1, { ptype := PType.strT, val := pv, locked := false }) else r) } pname =
        some { ptype := PType.strT, val := pv, locked := false } := by
      unfold parmFind
      rw [lookup_map_update]
      unfold parmFind at hp
      rw [hp]
      simp
    have e2 : nodeSetParm
        { node with parms := node.parms.map (fun r =>
          if r.1 = pname then (r.1, { ptype := PType.strT, val := pv, locked := false }) else r) }
        pname (PVal.s ("ERROR: " ++ msg)) = Except.ok
        { node with parms := (node.parms.map (fun r =>
          if r.1 = pname then (r.1, { ptype := PType.strT, val := pv, locked := false }) else r)).map (fun r =>
          if r.1 = pname then (r.1, { ptype := PType.strT, val := PVal.s ("ERROR: " ++ msg), locked := false }) else r) } := by
      unfold nodeSetParm
      rw [f1]
      rfl
    have f2 : parmFind
        { node with parms := (node.parms.map (fun r =>
          if r.1 = pname then (r.1, { ptype := PType.strT, val := pv, locked := false }) else r)).map (fun r =>
          if r.1 = pname then (r.1, { ptype := PType.strT, val := PVal.s ("ERROR: " ++ msg), locked := false }) else r) } pname =
        some { ptype := PType.strT, val := PVal.s ("ERROR: " ++ msg), locked := false } := by
      unfold parmFind
      rw [lookup_map_update]
      unfold parmFind at f1
      rw [f1]
      simp
    have e3 : nodeLockParm
        { node with parms := (node.parms.map (fun r =>
          if r.1 = pname then (r.1, { ptype := PType.strT, val := pv, locked := false }) else r)).map (fun r =>
          if r.1 = pname then (r.1, { ptype := PType.strT, val := PVal.s ("ERROR: " ++ msg), locked := false }) else r) }
        pname true = Except.ok
        { node with parms := ((node.parms.map (fun r =>
          if r.1 = pname then (r.1, { ptype := PType.strT, val := pv, locked := false }) else r)).map (fun r =>
          if r.1 = pname then (r.1, { ptype := PType.strT, val := PVal.s ("ERROR: " ++ msg), locked := false }) else r)).map (fun r =>
          if r.1 = pname then (r.1, { ptype := PType.strT, val := PVal.s ("ERROR: " ++ msg), locked := true }) else r) } := by
      unfold nodeLockParm
      rw [f2]
    refine ⟨{ node with parms := ((node.parms.map (fun r =>
          if r.1 = pname then (r.1, { ptype := PType.strT, val := pv, locked := false }) else r)).map (fun r =>
          if r.1 = pname then (r.1, { ptype := PType.strT, val := PVal.s ("ERROR: " ++ msg), locked := false }) else r)).map (fun r =>
          if r.1 = pname then (r.1, { ptype := PType.strT, val := PVal.s ("ERROR: " ++ msg), locked := true }) else r) }, ?_, ?_⟩
    · simp only [compute_and_set, hc, Except.instMonad, Except.bind, Except.pure]
      rw [e1]
      simp only [Except.bind]
      rw [e2]
      simp only [Except.bind]
      rw [e3]
    · unfold parmFind
      rw [lookup_map_update]
      unfold parmFind at f2
      rw [f2]
      simp
  · intro env node h
    rw [reset_render_path, if_neg (by simp [h])]
    rfl

theorem c5_witness :
    (compute_output_path envBad freshTkNode "output_ifd_template" none =
      Except.error (Err.tankError
        "This Houdini file is not a Shotgun Toolkit work file!")) ∧
    (parmFind freshTkNode "sgtk_ass_diskfile" =
      some { ptype := PType.strT, val := PVal.s "", locked := true }) ∧
    (∃ n', compute_and_set envBad freshTkNode "sgtk_ass_diskfile"
        "output_ifd_template" none = Except.ok n' ∧
      parmFind n' "sgtk_ass_diskfile" = some
        { ptype := PType.strT,
          val := PVal.s
            ("ERROR: " ++ "This Houdini file is not a Shotgun Toolkit work file!"),
          locked := true }) :=
  ⟨rfl, by decide,
    c5_compute_and_set_catches_tank_error.1 envBad freshTkNode
      "sgtk_ass_diskfile" "output_ifd_template" none
      "This Houdini file is not a Shotgun Toolkit work file!"
      { ptype := PType.strT, val := PVal.s "", locked := true }
      rfl (by decide) rfl⟩

/-- Whether a character is one of the two path separators. -/
def isPathSep (c : Char) : Bool :=
  c == '/' || c == '\\'

/-- C3: `_compute_output_path` fails with the "not a managed work file"
TankError whenever the work-file template yields no fields for the scene
file, returning no path; and whenever it does return a path — given that
the resolved templates emit only the native separator or forward slashes —
that path contains only forward-slash separators. -/
theorem c3_compute_output_path_guard_and_slashes (env : Env) (node : Node)
    (tname : String) (aov : Option String) :
    (get_hipfile_fields env = [] →
      compute_output_path env node tname aov =
        Except.error (Err.tankError
          "This Houdini file is not a Shotgun Toolkit work file!")) ∧
    ((∀ t ot, env.get_template_by_name t = some ot →
        ∀ f r, ot.apply_fields f = Except.ok r →
          ∀ c ∈ r.data, isPathSep c = true → c = env.osSep ∨ c = '/') →
      ∀ p, compute_output_path env node tname aov = Except.ok p →
        ∀ c ∈ p.data, isPathSep c = true → c = '/') := by
  constructor
  · intro h
    unfold compute_output_path
    rw [h]
    simp
  · intro hsep p hp c hc hps
    cases aov with
    | none =>
        unfold compute_output_path at hp
        by_cases h0 : get_hipfile_fields env = []
        · rw [h0] at hp
          simp at hp
        · rw [if_neg h0] at hp
          cases hprof : get_output_profile env node with
          | error e => rw [hprof] at hp; exact Except.noConfusion hp
          | ok output_profile =>
              simp only [hprof] at hp
              cases htn : pyDictGetItem output_profile tname with
              | error e => rw [htn] at hp; exact Except.noConfusion hp
              | ok tnameV =>
                  simp only [htn] at hp
                  cases hT : env.get_template_by_name tnameV with
                  | none => rw [hT] at hp; exact Except.noConfusion hp
                  | some ot =>
                      simp only [hT] at hp
                      split at hp
                      · exact Except.noConfusion hp
                      · rename_i path happ
                        injection hp with hpp
                        subst hpp
                        obtain ⟨c0, hc0, hfc⟩ := List.mem_map.mp hc
                        by_cases hsepc : c0 = env.osSep
                        · rw [← hfc, if_pos hsepc]
                        · rw [← hfc, if_neg hsepc] at hps ⊢
                          rcases hsep _ _ hT _ _ happ c0 hc0 hps with h1 | h1
                          · exact absurd h1 hsepc
                          · exact h1
    | some a =>
        unfold compute_output_path at hp
        by_cases h0 : get_hipfile_fields env = []
        · rw [h0] at hp
          simp at hp
        · rw [if_neg h0] at hp
          cases hprof : get_output_profile env node with
          | error e => rw [hprof] at hp; exact Except.noConfusion hp
          | ok output_profile =>
              simp only [hprof] at hp
              cases htn : pyDictGetItem output_profile tname with
              | error e => rw [htn] at hp; exact Except.noConfusion hp
              | ok tnameV =>
                  simp only [htn] at hp
                  cases hT : env.get_template_by_name tnameV with
                  | none => rw [hT] at hp; exact Except.noConfusion hp
                  | some ot =>
                      simp only [hT] at hp
                      split at hp
                      · exact Except.noConfusion hp
                      · rename_i path happ
                        injection hp with hpp
                        subst hpp
                        obtain ⟨c0, hc0, hfc⟩ := List.mem_map.mp hc
                        by_cases hsepc : c0 = env.osSep
                        · rw [← hfc, if_pos hsepc]
                        · rw [← hfc, if_neg hsepc] at hps ⊢
                          rcases hsep _ _ hT _ _ happ c0 hc0 hps with h1 | h1
                          · exact absurd h1 hsepc
                          · exact h1

theorem c3_witness :
    (get_hipfile_fields envBad = []) ∧
    (compute_output_path envBad freshTkNode "output_render_template" none =
      Except.error (Err.tankError
        "This Houdini file is not a Shotgun Toolkit work file!")) ∧
    (compute_output_path envGood freshTkNode "output_render_template" none =
      Except.ok "C:/proj/shots/sh010/render.exr") ∧
    (∀ c ∈ "C:/proj/shots/sh010/render.exr".data, isPathSep c = true →
      c = '/') :=
  ⟨rfl,
    (c3_compute_output_path_guard_and_slashes envBad freshTkNode
      "output_render_template" none).1 rfl,
    rfl,
    fun c hc hps =>
      (c3_compute_output_path_guard_and_slashes envGood freshTkNode
        "output_render_template" none).2
        (by
          intro t ot hot f r hr c1 hc1 hps1
          have hot' : tmplGood = ot := Option.some.inj hot
          rw [← hot'] at hr
          have hr' : "C:\\proj\\shots\\sh010\\render.exr" = r :=
            Except.ok.inj hr
          rw [← hr'] at hc1
          revert hps1
          revert hc1
          revert c1
          decide)
        "C:/proj/shots/sh010/render.exr" rfl c hc hps⟩

/-- A successful Python `list.index` result is non-negative and reads back
the element. -/
theorem pyListIndex_ok_get (l : List String) (x : String) (j : Int)
    (h : pyListIndex l x = Except.ok j) :
    0 ≤ j ∧ l.get? j.toNat = some x := by
  induction l generalizing j with
  | nil => cases h
  | cons a rest ih =>
      unfold pyListIndex at h
      by_cases ha : a = x
      · rw [if_pos ha] at h
        have h0 : (0 : Int) = j := Except.ok.inj h
        subst h0
        subst ha
        exact ⟨le_refl 0, rfl⟩
      · rw [if_neg ha] at h
        cases hr : pyListIndex rest x with
        | error e => rw [hr] at h; exact Except.noConfusion h
        | ok j0 =>
            rw [hr] at h
            have hj0 : j0 + 1 = j := Except.ok.inj h
            obtain ⟨h0, hg⟩ := ih j0 hr
            have hjn : j.toNat = j0.toNat + 1 := by omega
            refine ⟨by omega, ?_⟩
            rw [hjn]
            simpa using hg

/-- A lookup among keys the query never equals yields nothing. -/
theorem lookup_none_of_no_key {β : Type} (l : List (String × β)) (q : String)
    (h : ∀ p ∈ l, q ≠ p.1) : l.lookup q = none := by
  induction l with
  | nil => rfl
  | cons p t ih =>
      obtain ⟨n, b⟩ := p
      rw [List.lookup_cons,
        beq_false_of_ne (h (n, b) (List.mem_cons_self _ _))]
      exact ih (fun r hr => h r (List.mem_cons_of_mem _ hr))

/-- `List.lookup` distributes over append. -/
theorem lookup_append {β : Type} (l1 l2 : List (String × β)) (q : String) :
    (l1 ++ l2).lookup q = ((l1.lookup q).orElse (fun _ => l2.lookup q)) := by
  induction l1 with
  | nil => rfl
  | cons p t ih =>
      obtain ⟨n, b⟩ := p
      by_cases hq : q = n
      · subst hq
        rw [List.cons_append, List.lookup_cons, List.lookup_cons,
          beq_self_eq_true]
        rfl
      · rw [List.cons_append, List.lookup_cons, List.lookup_cons,
          beq_false_of_ne hq]
        exact ih

/-- The Arnold-side parameters of a node of the modelled layout, with the
given stored values. -/
def mkNativeParms (assFile pic : String) (nAovs : Int) (lb1 lb2 : String)
    (sep1 sep2 : Int) (sf1 sf2 : String) (mk : Int) :
    List (String × Parm) :=
  [("ar_ass_file", { ptype := PType.strT, val := PVal.s assFile, locked := false }),
   ("ar_picture", { ptype := PType.strT, val := PVal.s pic, locked := false }),
   ("ar_aovs", { ptype := PType.intT, val := PVal.i nAovs, locked := false }),
   ("ar_aov_label1", { ptype := PType.strT, val := PVal.s lb1, locked := false }),
   ("ar_aov_label2", { ptype := PType.strT, val := PVal.s lb2, locked := false }),
   ("ar_aov_separate1", { ptype := PType.intT, val := PVal.i sep1, locked := false }),
   ("ar_aov_separate2", { ptype := PType.intT, val := PVal.i sep2, locked := false }),
   ("ar_aov_separate_file1", { ptype := PType.strT, val := PVal.s sf1, locked := false }),
   ("ar_aov_separate_file2", { ptype := PType.strT, val := PVal.s sf2, locked := false }),
   ("soho_mkpath", { ptype := PType.intT, val := PVal.i mk, locked := false })]

/-- The toolkit-only parameters of a toolkit node of the modelled layout,
with the given stored values. -/
def mkSgtkParms (profIdx : Int) (ini hip fn ad ap saf1 saf2 : String) :
    List (String × Parm) :=
  [("sgtk_output_profile", { ptype := PType.intT, val := PVal.i profIdx, locked := false }),
   ("sgtk_initialized", { ptype := PType.strT, val := PVal.s ini, locked := false }),
   ("sgtk_hip_path", { ptype := PType.strT, val := PVal.s hip, locked := false }),
   ("sgtk_ar_filename", { ptype := PType.strT, val := PVal.s fn, locked := true }),
   ("sgtk_ass_diskfile", { ptype := PType.strT, val := PVal.s ad, locked := true }),
   ("sgtk_ar_picture", { ptype := PType.strT, val := PVal.s ap, locked := false }),
   ("sgtk_ar_aov_separate_file1", { ptype := PType.strT, val := PVal.s saf1, locked := true }),
   ("sgtk_ar_aov_separate_file2", { ptype := PType.strT, val := PVal.s saf2, locked := true })]

/-- An arbitrary toolkit Arnold node of the modelled layout: every
parameter value, the name, position and input connections are free. -/
def mkTkNode (nm : String) (px py : Int) (assFile pic : String)
    (nAovs : Int) (lb1 lb2 : String) (sep1 sep2 : Int) (sf1 sf2 : String)
    (mk : Int) (profIdx : Int) (ini hip fn ad ap saf1 saf2 : String)
    (conns : List (Nat × String)) : Node :=
  { name := nm, pos := (px, py),
    parms := mkNativeParms assFile pic nAovs lb1 lb2 sep1 sep2 sf1 sf2 mk ++
      mkSgtkParms profIdx ini hip fn ad ap saf1 saf2,
    userData := [], inputConns := conns }

/-- An arbitrary native Arnold node of the modelled layout: every parameter
value, the name, position, user data and input connections are free. -/
def mkNativeNode (nm : String) (px py : Int) (assFile pic : String)
    (nAovs : Int) (lb1 lb2 : String) (sep1 sep2 : Int) (sf1 sf2 : String)
    (mkp : Int) (ud : List (String × String)) (conns : List (Nat × String)) :
    Node :=
  { name := nm, pos := (px, py),
    parms := mkNativeParms assFile pic nAovs lb1 lb2 sep1 sep2 sf1 sf2 mkp,
    userData := ud, inputConns := conns }

set_option maxHeartbeats 4000000 in
/-- Stage view of the toolkit-to-native loop body on the modelled layout:
everything before the profile-label lookup evaluates, leaving the lookup
composed with the tail. -/
theorem fwd_stage (labels1 : List String) (nm : String) (px py : Int)
    (assFile pic lb1 lb2 sf1 sf2 ini hip fn ad ap saf1 saf2 : String)
    (nAovs sep1 sep2 mkp profIdx : Int) (conns : List (Nat × String)) :
    convert_to_regular_one labels1
        (mkTkNode nm px py assFile pic nAovs lb1 lb2 sep1 sep2 sf1 sf2 mkp
          profIdx ini hip fn ad ap saf1 saf2 conns) =
      Except.bind (pyIndex labels1 profIdx)
        (convert_fwd_after_profile
          (mkTkNode nm px py assFile pic nAovs lb1 lb2 sep1 sep2 sf1 sf2 mkp
            profIdx ini hip fn ad ap saf1 saf2 conns)
          (mkNativeNode "ifd1" 0 0 assFile pic nAovs lb1 lb2 sep1 sep2 sf1 sf2
            mkp [] [])) := rfl

/-- Recognising the stored profile name on the modelled layout. -/
theorem bwd_stage1 (labels2 : List String) (nm prof : String) (px py : Int)
    (assFile pic lb1 lb2 sf1 sf2 : String) (nAovs sep1 sep2 mkp : Int)
    (rest : List (String × String)) (conns : List (Nat × String)) :
    convert_back_one labels2
        (mkNativeNode nm px py assFile pic nAovs lb1 lb2 sep1 sep2 sf1 sf2 mkp
          (("tk_output_profile_name", prof) :: rest) conns) =
      if prof = "" then Except.ok none
      else convert_bwd_build labels2
        (mkNativeNode nm px py assFile pic nAovs lb1 lb2 sep1 sep2 sf1 sf2 mkp
          (("tk_output_profile_name", prof) :: rest) conns) prof := rfl

/-- The profile-index lookup is the only stuck step of
`convert_bwd_build`: once it returns an index, the build is the profile
selection bound to the copy stage. -/
theorem bwd_stage2 (labels2 : List String) (n : Node) (prof : String)
    (j : Int) (hj : pyListIndex labels2 prof = Except.ok j) :
    convert_bwd_build labels2 n prof =
      Except.bind (nodeSetParm freshTkNode "sgtk_output_profile" (PVal.i j))
        (convert_bwd_after_index n) := by
  simp only [convert_bwd_build, hj]
  rfl

/-- Selecting the profile entry on a fresh toolkit node. -/
theorem bwd_setProf (j : Int) :
    nodeSetParm freshTkNode "sgtk_output_profile" (PVal.i j) =
      Except.ok (mkTkNode "sgtk_arnold1" 0 0 "" "" 0 "" "" 0 0 "" "" 1 j
        "True" "" "" "" "" "" "" []) := rfl

set_option maxHeartbeats 4000000 in
/-- The parameter copy of the native-to-toolkit loop body on the modelled
layout. -/
theorem bwd_stage3 (nm : String) (px py : Int)
    (assFile pic lb1 lb2 sf1 sf2 : String) (nAovs sep1 sep2 mkp j : Int)
    (ud : List (String × String)) (conns : List (Nat × String)) :
    convert_bwd_after_index
        (mkNativeNode nm px py assFile pic nAovs lb1 lb2 sep1 sep2 sf1 sf2 mkp
          ud conns)
        (mkTkNode "sgtk_arnold1" 0 0 "" "" 0 "" "" 0 0 "" "" 1 j
          "True" "" "" "" "" "" "" []) =
      convert_bwd_after_copy
        (mkNativeNode nm px py assFile pic nAovs lb1 lb2 sep1 sep2 sf1 sf2 mkp
          ud conns)
        (mkTkNode "sgtk_arnold1" 0 0 assFile pic nAovs lb1 lb2 sep1 sep2
          sf1 sf2 mkp j "True" "" "" "" "" "" "" []) := rfl

/-- Installing the copied connections never fails within the modelled
connector count. -/
theorem copyInputsN_ok (src tgt : Node) (k : Nat)
    (h : ¬ src.inputConns.length > k) :
    copyInputsN src tgt k =
      Except.ok { tgt with inputConns := src.inputConns } := by
  unfold copyInputsN
  rw [if_neg h]

/-- A name without the toolkit tag never hits the toolkit-only
parameters. -/
theorem lookup_mkSgtkParms_none (q : String)
    (hq : pyStartsWith q "sgtk_" = false) (profIdx : Int)
    (ini hip fn ad ap saf1 saf2 : String) :
    (mkSgtkParms profIdx ini hip fn ad ap saf1 saf2).lookup q = none := by
  have mk1 : q ≠ "sgtk_output_profile" := fun he => absurd (he ▸ hq) (by decide)
  have mk2 : q ≠ "sgtk_initialized" := fun he => absurd (he ▸ hq) (by decide)
  have mk3 : q ≠ "sgtk_hip_path" := fun he => absurd (he ▸ hq) (by decide)
  have mk4 : q ≠ "sgtk_ar_filename" := fun he => absurd (he ▸ hq) (by decide)
  have mk5 : q ≠ "sgtk_ass_diskfile" := fun he => absurd (he ▸ hq) (by decide)
  have mk6 : q ≠ "sgtk_ar_picture" := fun he => absurd (he ▸ hq) (by decide)
  have mk7 : q ≠ "sgtk_ar_aov_separate_file1" := fun he => absurd (he ▸ hq) (by decide)
  have mk8 : q ≠ "sgtk_ar_aov_separate_file2" := fun he => absurd (he ▸ hq) (by decide)
  simp [mkSgtkParms, List.lookup_cons, beq_false_of_ne mk1, beq_false_of_ne mk2, beq_false_of_ne mk3, beq_false_of_ne mk4, beq_false_of_ne mk5, beq_false_of_ne mk6, beq_false_of_ne mk7, beq_false_of_ne mk8]

/-- Two nodes of the modelled layout agreeing on every Arnold-side value
agree on every parameter without the toolkit tag. -/
theorem parmVal_eq_nonsgtk (q : String)
    (hq : pyStartsWith q "sgtk_" = false)
    (nm1 nm2 : String) (px1 py1 px2 py2 : Int) (A P L1 L2 F1 F2 : String)
    (c S1 S2 M pi1 pi2 : Int)
    (ini1 hip1 fn1 ad1 ap1 sa11 sa21 ini2 hip2 fn2 ad2 ap2 sa12 sa22 : String)
    (conns1 conns2 : List (Nat × String)) :
    parmVal (mkTkNode nm1 px1 py1 A P c L1 L2 S1 S2 F1 F2 M pi1
        ini1 hip1 fn1 ad1 ap1 sa11 sa21 conns1) q =
      parmVal (mkTkNode nm2 px2 py2 A P c L1 L2 S1 S2 F1 F2 M pi2
        ini2 hip2 fn2 ad2 ap2 sa12 sa22 conns2) q := by
  unfold parmVal parmFind mkTkNode
  simp only
  rw [lookup_append, lookup_append,
    lookup_mkSgtkParms_none q hq pi1 ini1 hip1 fn1 ad1 ap1 sa11 sa21,
    lookup_mkSgtkParms_none q hq pi2 ini2 hip2 fn2 ad2 ap2 sa12 sa22]

/-- Extra-plane label parameter names never carry the toolkit tag. -/
theorem pyStartsWith_label_sgtk (s : String) :
    pyStartsWith ("ar_aov_label" ++ s) "sgtk_" = false := rfl

set_option maxHeartbeats 4000000 in
/-- C1: converting a toolkit node of the modelled layout to a native node
and back reconstructs, whenever the selected profile's menu label still
appears among the configured profile labels, an equivalent node: same
name, same position, the same value for every parameter whose name does
not carry the toolkit tag, the same per-plane AOV labels, and the same
selected profile label. -/
theorem c1_convert_roundtrip_reconstructs
    (labels1 labels2 : List String) (prof : String) (j : Int)
    (nm : String) (px py : Int)
    (A P L1 L2 F1 F2 ini hip fn ad ap sa1 sa2 : String)
    (c S1 S2 M pi : Int) (conns : List (Nat × String))
    (hprof : pyIndex labels1 pi = Except.ok prof)
    (hne : prof ≠ "")
    (hj : pyListIndex labels2 prof = Except.ok j)
    (hc0 : 0 ≤ c) (hc2 : c ≤ 2)
    (hconns : conns.length ≤ numInputConnectors) :
    ∃ t2, Except.bind (convert_to_regular_one labels1
          (mkTkNode nm px py A P c L1 L2 S1 S2 F1 F2 M pi
            ini hip fn ad ap sa1 sa2 conns))
        (convert_back_one labels2) = Except.ok (some t2) ∧
      t2.name = nm ∧
      t2.pos = (px, py) ∧
      (∀ q, pyStartsWith q "sgtk_" = false →
        parmVal t2 q = parmVal (mkTkNode nm px py A P c L1 L2 S1 S2 F1 F2 M pi
          ini hip fn ad ap sa1 sa2 conns) q) ∧
      (∀ i : Int, parmVal t2 ("ar_aov_label" ++ toString i) =
        parmVal (mkTkNode nm px py A P c L1 L2 S1 S2 F1 F2 M pi
          ini hip fn ad ap sa1 sa2 conns) ("ar_aov_label" ++ toString i)) ∧
      parmVal t2 "sgtk_output_profile" = some (PVal.i j) ∧
      0 ≤ j ∧ labels2.get? j.toNat = some prof := by
  have hc4 : ¬ conns.length > numInputConnectors := by omega
  have hcase : c = 0 ∨ c = 1 ∨ c = 2 := by omega
  refine ⟨mkTkNode nm px py A P c L1 L2 S1 S2 F1 F2 M j
    "True" "" "" "" "" "" "" conns, ?_, rfl, rfl, ?_, ?_, rfl,
    pyListIndex_ok_get labels2 prof j hj⟩
  · rcases hcase with h | h | h <;> subst h
    · have hA : convert_to_regular_one labels1 (mkTkNode nm px py A P 0 L1 L2 S1 S2 F1 F2 M pi ini hip fn ad ap sa1 sa2 conns) =
          Except.ok (mkNativeNode nm px py A P 0 L1 L2 S1 S2 F1 F2 M
          [("tk_output_profile_name", prof)] conns) := by
        rw [fwd_stage, hprof, exbind_ok]
        have h2 : convert_fwd_after_profile
            (mkTkNode nm px py A P 0 L1 L2 S1 S2 F1 F2 M pi ini hip fn ad ap sa1 sa2 conns)
            (mkNativeNode "ifd1" 0 0 A P 0 L1 L2 S1 S2 F1 F2 M [] []) prof =
            Except.bind (copyInputsN
              (mkTkNode nm px py A P 0 L1 L2 S1 S2 F1 F2 M pi ini hip fn ad ap sa1 sa2 conns)
              (mkNativeNode "ifd1" 0 0 A P 0 L1 L2 S1 S2 F1 F2 M
            [("tk_output_profile_name", prof)] [])
              numInputConnectors)
              (fun n4 => Except.ok { n4 with name := nm, pos := (px, py) }) := rfl
        rw [h2, copyInputsN_ok
          (mkTkNode nm px py A P 0 L1 L2 S1 S2 F1 F2 M pi ini hip fn ad ap sa1 sa2 conns)
          (mkNativeNode "ifd1" 0 0 A P 0 L1 L2 S1 S2 F1 F2 M
            [("tk_output_profile_name", prof)] [])
          numInputConnectors hc4]
        rfl
      have hB : convert_back_one labels2
          (mkNativeNode nm px py A P 0 L1 L2 S1 S2 F1 F2 M
          [("tk_output_profile_name", prof)] conns) =
          Except.ok (some (mkTkNode nm px py A P 0 L1 L2 S1 S2 F1 F2 M j "True" "" "" "" "" "" "" conns)) := by
        rw [bwd_stage1, if_neg hne, bwd_stage2 labels2 _ prof j hj,
          bwd_setProf j, exbind_ok, bwd_stage3]
        have h8 : convert_bwd_after_copy
            (mkNativeNode nm px py A P 0 L1 L2 S1 S2 F1 F2 M
          [("tk_output_profile_name", prof)] conns)
            (mkTkNode "sgtk_arnold1" 0 0 A P 0 L1 L2 S1 S2 F1 F2 M j "True" "" "" "" "" "" "" []) =
            Except.bind (copyInputsN
              (mkNativeNode nm px py A P 0 L1 L2 S1 S2 F1 F2 M
          [("tk_output_profile_name", prof)] conns)
              (mkTkNode "sgtk_arnold1" 0 0 A P 0 L1 L2 S1 S2 F1 F2 M j "True" "" "" "" "" "" "" [])
              numInputConnectors)
              (fun t4 => Except.ok (some { t4 with name := nm, pos := (px, py) })) := rfl
        rw [h8, copyInputsN_ok
          (mkNativeNode nm px py A P 0 L1 L2 S1 S2 F1 F2 M
          [("tk_output_profile_name", prof)] conns)
          (mkTkNode "sgtk_arnold1" 0 0 A P 0 L1 L2 S1 S2 F1 F2 M j "True" "" "" "" "" "" "" [])
          numInputConnectors hc4]
        rfl
      rw [hA, exbind_ok]
      exact hB
    · have hA : convert_to_regular_one labels1 (mkTkNode nm px py A P 1 L1 L2 S1 S2 F1 F2 M pi ini hip fn ad ap sa1 sa2 conns) =
          Except.ok (mkNativeNode nm px py A P 1 L1 L2 S1 S2 F1 F2 M
          [("tk_output_profile_name", prof), ("ar_aov_label1", L1)] conns) := by
        rw [fwd_stage, hprof, exbind_ok]
        have h2 : convert_fwd_after_profile
            (mkTkNode nm px py A P 1 L1 L2 S1 S2 F1 F2 M pi ini hip fn ad ap sa1 sa2 conns)
            (mkNativeNode "ifd1" 0 0 A P 1 L1 L2 S1 S2 F1 F2 M [] []) prof =
            Except.bind (copyInputsN
              (mkTkNode nm px py A P 1 L1 L2 S1 S2 F1 F2 M pi ini hip fn ad ap sa1 sa2 conns)
              (mkNativeNode "ifd1" 0 0 A P 1 L1 L2 S1 S2 F1 F2 M
            [("tk_output_profile_name", prof), ("ar_aov_label1", L1)] [])
              numInputConnectors)
              (fun n4 => Except.ok { n4 with name := nm, pos := (px, py) }) := rfl
        rw [h2, copyInputsN_ok
          (mkTkNode nm px py A P 1 L1 L2 S1 S2 F1 F2 M pi ini hip fn ad ap sa1 sa2 conns)
          (mkNativeNode "ifd1" 0 0 A P 1 L1 L2 S1 S2 F1 F2 M
            [("tk_output_profile_name", prof), ("ar_aov_label1", L1)] [])
          numInputConnectors hc4]
        rfl
      have hB : convert_back_one labels2
          (mkNativeNode nm px py A P 1 L1 L2 S1 S2 F1 F2 M
          [("tk_output_profile_name", prof), ("ar_aov_label1", L1)] conns) =
          Except.ok (some (mkTkNode nm px py A P 1 L1 L2 S1 S2 F1 F2 M j "True" "" "" "" "" "" "" conns)) := by
        rw [bwd_stage1, if_neg hne, bwd_stage2 labels2 _ prof j hj,
          bwd_setProf j, exbind_ok, bwd_stage3]
        have h8 : convert_bwd_after_copy
            (mkNativeNode nm px py A P 1 L1 L2 S1 S2 F1 F2 M
          [("tk_output_profile_name", prof), ("ar_aov_label1", L1)] conns)
            (mkTkNode "sgtk_arnold1" 0 0 A P 1 L1 L2 S1 S2 F1 F2 M j "True" "" "" "" "" "" "" []) =
            Except.bind (copyInputsN
              (mkNativeNode nm px py A P 1 L1 L2 S1 S2 F1 F2 M
          [("tk_output_profile_name", prof), ("ar_aov_label1", L1)] conns)
              (mkTkNode "sgtk_arnold1" 0 0 A P 1 L1 L2 S1 S2 F1 F2 M j "True" "" "" "" "" "" "" [])
              numInputConnectors)
              (fun t4 => Except.ok (some { t4 with name := nm, pos := (px, py) })) := rfl
        rw [h8, copyInputsN_ok
          (mkNativeNode nm px py A P 1 L1 L2 S1 S2 F1 F2 M
          [("tk_output_profile_name", prof), ("ar_aov_label1", L1)] conns)
          (mkTkNode "sgtk_arnold1" 0 0 A P 1 L1 L2 S1 S2 F1 F2 M j "True" "" "" "" "" "" "" [])
          numInputConnectors hc4]
        rfl
      rw [hA, exbind_ok]
      exact hB
    · have hA : convert_to_regular_one labels1 (mkTkNode nm px py A P 2 L1 L2 S1 S2 F1 F2 M pi ini hip fn ad ap sa1 sa2 conns) =
          Except.ok (mkNativeNode nm px py A P 2 L1 L2 S1 S2 F1 F2 M
          [("tk_output_profile_name", prof), ("ar_aov_label1", L1), ("ar_aov_label2", L2)] conns) := by
        rw [fwd_stage, hprof, exbind_ok]
        have h2 : convert_fwd_after_profile
            (mkTkNode nm px py A P 2 L1 L2 S1 S2 F1 F2 M pi ini hip fn ad ap sa1 sa2 conns)
            (mkNativeNode "ifd1" 0 0 A P 2 L1 L2 S1 S2 F1 F2 M [] []) prof =
            Except.bind (copyInputsN
              (mkTkNode nm px py A P 2 L1 L2 S1 S2 F1 F2 M pi ini hip fn ad ap sa1 sa2 conns)
              (mkNativeNode "ifd1" 0 0 A P 2 L1 L2 S1 S2 F1 F2 M
            [("tk_output_profile_name", prof), ("ar_aov_label1", L1), ("ar_aov_label2", L2)] [])
              numInputConnectors)
              (fun n4 => Except.ok { n4 with name := nm, pos := (px, py) }) := rfl
        rw [h2, copyInputsN_ok
          (mkTkNode nm px py A P 2 L1 L2 S1 S2 F1 F2 M pi ini hip fn ad ap sa1 sa2 conns)
          (mkNativeNode "ifd1" 0 0 A P 2 L1 L2 S1 S2 F1 F2 M
            [("tk_output_profile_name", prof), ("ar_aov_label1", L1), ("ar_aov_label2", L2)] [])
          numInputConnectors hc4]
        rfl
      have hB : convert_back_one labels2
          (mkNativeNode nm px py A P 2 L1 L2 S1 S2 F1 F2 M
          [("tk_output_profile_name", prof), ("ar_aov_label1", L1), ("ar_aov_label2", L2)] conns) =
          Except.ok (some (mkTkNode nm px py A P 2 L1 L2 S1 S2 F1 F2 M j "True" "" "" "" "" "" "" conns)) := by
        rw [bwd_stage1, if_neg hne, bwd_stage2 labels2 _ prof j hj,
          bwd_setProf j, exbind_ok, bwd_stage3]
        have h8 : convert_bwd_after_copy
            (mkNativeNode nm px py A P 2 L1 L2 S1 S2 F1 F2 M
          [("tk_output_profile_name", prof), ("ar_aov_label1", L1), ("ar_aov_label2", L2)] conns)
            (mkTkNode "sgtk_arnold1" 0 0 A P 2 L1 L2 S1 S2 F1 F2 M j "True" "" "" "" "" "" "" []) =
            Except.bind (copyInputsN
              (mkNativeNode nm px py A P 2 L1 L2 S1 S2 F1 F2 M
          [("tk_output_profile_name", prof), ("ar_aov_label1", L1), ("ar_aov_label2", L2)] conns)
              (mkTkNode "sgtk_arnold1" 0 0 A P 2 L1 L2 S1 S2 F1 F2 M j "True" "" "" "" "" "" "" [])
              numInputConnectors)
              (fun t4 => Except.ok (some { t4 with name := nm, pos := (px, py) })) := rfl
        rw [h8, copyInputsN_ok
          (mkNativeNode nm px py A P 2 L1 L2 S1 S2 F1 F2 M
          [("tk_output_profile_name", prof), ("ar_aov_label1", L1), ("ar_aov_label2", L2)] conns)
          (mkTkNode "sgtk_arnold1" 0 0 A P 2 L1 L2 S1 S2 F1 F2 M j "True" "" "" "" "" "" "" [])
          numInputConnectors hc4]
        rfl
      rw [hA, exbind_ok]
      exact hB
  · intro q hq
    exact parmVal_eq_nonsgtk q hq nm nm px py px py A P L1 L2 F1 F2 c S1 S2 M
      j pi "True" "" "" "" "" "" "" ini hip fn ad ap sa1 sa2 conns conns
  · intro i
    exact parmVal_eq_nonsgtk _ (pyStartsWith_label_sgtk (toString i))
      nm nm px py px py A P L1 L2 F1 F2 c S1 S2 M
      j pi "True" "" "" "" "" "" "" ini hip fn ad ap sa1 sa2 conns conns

theorem c1_witness :
    (pyIndex ["beauty", "deep"] 1 = Except.ok "deep") ∧
    ("deep" ≠ "") ∧
    (pyListIndex ["beauty", "deep"] "deep" = Except.ok 1) ∧
    ((0 : Int) ≤ 2 ∧ (2 : Int) ≤ 2) ∧
    ([(0, "mantra1")] : List (Nat × String)).length ≤ numInputConnectors ∧
    (∃ t2, Except.bind (convert_to_regular_one ["beauty", "deep"]
          (mkTkNode "arnold_beauty" 3 4 "out.ass" "out.exr" 2 "diffuse" "spec"
            1 0 "d.exr" "s.exr" 1 1 "False" "shot.hip" "fnA" "adA" "apA"
            "safA" "safB" [(0, "mantra1")]))
        (convert_back_one ["beauty", "deep"]) = Except.ok (some t2) ∧
      t2.name = "arnold_beauty" ∧
      t2.pos = (3, 4) ∧
      (∀ q, pyStartsWith q "sgtk_" = false →
        parmVal t2 q = parmVal (mkTkNode "arnold_beauty" 3 4 "out.ass"
          "out.exr" 2 "diffuse" "spec" 1 0 "d.exr" "s.exr" 1 1 "False"
          "shot.hip" "fnA" "adA" "apA" "safA" "safB" [(0, "mantra1")]) q) ∧
      (∀ i : Int, parmVal t2 ("ar_aov_label" ++ toString i) =
        parmVal (mkTkNode "arnold_beauty" 3 4 "out.ass" "out.exr" 2 "diffuse"
          "spec" 1 0 "d.exr" "s.exr" 1 1 "False" "shot.hip" "fnA" "adA" "apA"
          "safA" "safB" [(0, "mantra1")])
          ("ar_aov_label" ++ toString i)) ∧
      parmVal t2 "sgtk_output_profile" = some (PVal.i 1) ∧
      (0 : Int) ≤ 1 ∧ ["beauty", "deep"].get? (1 : Int).toNat = some "deep") :=
  ⟨rfl, by decide, rfl, ⟨by decide, by decide⟩, by decide,
    c1_convert_roundtrip_reconstructs ["beauty", "deep"] ["beauty", "deep"]
      "deep" 1 "arnold_beauty" 3 4 "out.ass" "out.exr" "diffuse" "spec"
      "d.exr" "s.exr" "False" "shot.hip" "fnA" "adA" "apA" "safA" "safB"
      2 1 0 1 1 [(0, "mantra1")]
      rfl (by decide) rfl (by decide) (by decide) (by decide)⟩
